import Mathlib

/-!
Verification of the client-side real-time data synchronization layer of the
Pagina-Fotos photo-portfolio repository.

The repository contains two variants of the same React + Firestore single-page
application:

* `src/pagina-fotos/src/App.jsx` — embedded here in namespace `AppV`;
* `src/unnamed/part_000` — embedded here in namespace `PartV`.

The embedding models the pure decision logic of the handlers and subscription
callbacks: JS strings become `String`, Firestore timestamps materialized in a
snapshot become `Option Int` (milliseconds since epoch, `none` when the field
is missing or null), documents become structures holding the fields the
embedded logic reads, asynchronous remote calls become explicit lists of
issued `RemoteCall` values together with Boolean environment knobs telling
whether each remote call succeeds, and React `useState` cells become fields of
explicit state records transformed by total functions.  UI-only state
(spinner flags such as `isSubmittingAlbum` / `isDeleting`) is omitted.
-/

namespace PaginaFotos

/-- Whitespace predicate for the JavaScript `String.prototype.trim` as it
applies to the characters occurring in this application (ASCII whitespace). -/
def isJsSpace (c : Char) : Bool :=
  c = ' ' || c = '\t' || c = '\n' || c = '\r'

/-- Model of the JavaScript `s.trim()`: drop leading and trailing whitespace. -/
def jsTrim (s : String) : String :=
  String.mk (((s.toList.dropWhile isJsSpace).reverse.dropWhile isJsSpace).reverse)

theorem jsTrim_empty : jsTrim "" = "" := by decide

theorem jsTrim_of_all_space (s : String)
    (h : ∀ c ∈ s.toList, isJsSpace c = true) : jsTrim s = "" := by
  unfold jsTrim
  rw [List.dropWhile_eq_nil_iff.mpr h]
  rfl

theorem ne_empty_of_jsTrim_ne_empty (s : String) (h : jsTrim s ≠ "") : s ≠ "" := by
  intro he
  exact h (he ▸ jsTrim_empty)

/-- Album document as materialized by a collection snapshot
(`snapshot.docs.map(doc => ({ id: doc.id, ...doc.data() }))`); only the fields
the embedded logic reads are retained.  `timestamp` is the creation-time field
(`timestamp` in part_000, `createdAt` in App.jsx), `none` when missing/null. -/
structure AlbumDoc where
  id : String
  name : String
  timestamp : Option Int
  deriving DecidableEq, Repr

/-- Photo document as materialized by a query snapshot. -/
structure PhotoDoc where
  id : String
  albumId : String
  timestamp : Option Int
  deriving DecidableEq, Repr

/-- Timestamp value written by a create call: the Firestore server-side
sentinel `serverTimestamp()` (part_000) or a client-generated `new Date()`
(App.jsx). -/
inductive TsWrite
  | serverTimestamp
  | clientNow
  deriving DecidableEq, Repr

/-- Payload of the album create call issued by `handleCreateAlbum` in App.jsx
(lines 695-702). -/
structure NewAlbumApp where
  name : String
  coverImageUrl : String
  description : String
  createdAt : TsWrite
  createdBy : String
  deriving DecidableEq, Repr

/-- Payload of the photo create call issued by `handleAddPhoto` in App.jsx
(lines 727-734). -/
structure NewPhotoApp where
  albumId : String
  imageUrl : String
  title : String
  uploadedAt : TsWrite
  uploadedBy : String
  deriving DecidableEq, Repr

/-- Payload of the album create call issued by `handleAddAlbum` in part_000
(lines 569-574). -/
structure NewAlbumPart where
  name : String
  thumbnailUrl : String
  timestamp : TsWrite
  createdBy : Option String
  deriving DecidableEq, Repr

/-- Payload of the photo create call issued by `handleAddPhoto` in part_000
(lines 596-602). -/
structure NewPhotoPart where
  albumId : String
  imageUrl : String
  caption : String
  timestamp : TsWrite
  createdBy : Option String
  deriving DecidableEq, Repr

/-- Remote store calls issued by the handlers. -/
inductive RemoteCall
  | createAlbumApp (payload : NewAlbumApp)
  | createPhotoApp (payload : NewPhotoApp)
  | createAlbumPart (payload : NewAlbumPart)
  | createPhotoPart (payload : NewPhotoPart)
  | deletePhotoDoc (id : String)
  | deleteAlbumDoc (id : String)
  deriving DecidableEq, Repr

/-- Sort key used by the part_000 comparator
`(b.timestamp?.toDate() || 0) - (a.timestamp?.toDate() || 0)`: a missing or
null timestamp contributes `0` (the epoch), a present one its millisecond
value. -/
def tsKey (t : Option Int) : Int := t.getD 0

/-- Boolean order used to sort albums: `a` may precede `b` when the key of `b`
is at most the key of `a` (descending by creation time). -/
def albumLe (a b : AlbumDoc) : Bool :=
  decide (tsKey b.timestamp ≤ tsKey a.timestamp)

/-- Descending order relation on adjacent albums, as the claim states it. -/
def AlbumDescOrder (a b : AlbumDoc) : Prop :=
  tsKey b.timestamp ≤ tsKey a.timestamp

/-- Model of `fetchedAlbums.sort((a, b) => (b.timestamp?.toDate() || 0) -
(a.timestamp?.toDate() || 0))` in part_000: a stable sort descending by
`tsKey`. -/
def sortAlbumsDesc (docs : List AlbumDoc) : List AlbumDoc :=
  docs.mergeSort albumLe

namespace AppV

/-- Albums snapshot callback of the `App` component in App.jsx (lines 87-95):
the list is replaced by the snapshot documents with no sorting applied. -/
def onAlbumsSnapshot (docs : List AlbumDoc) : List AlbumDoc := docs

end AppV

namespace PartV

/-- Albums snapshot callback of `GalleryPage` (lines 312-315), also used by
`HomePage` and `AdminPage` in part_000: the list is replaced by the snapshot
documents sorted descending by creation time, missing timestamps as epoch. -/
def onAlbumsSnapshot (docs : List AlbumDoc) : List AlbumDoc := sortAlbumsDesc docs

end PartV

theorem albumLe_trans (a b c : AlbumDoc) (h1 : albumLe a b = true)
    (h2 : albumLe b c = true) : albumLe a c = true := by
  simp only [albumLe, decide_eq_true_eq] at *
  omega

theorem albumLe_total (a b : AlbumDoc) : (albumLe a b || albumLe b a) = true := by
  simp only [albumLe, Bool.or_eq_true, decide_eq_true_eq]
  omega

/-- Claim C1 — counterexample.  In the App.jsx variant the albums snapshot
callback stores the snapshot documents unsorted, so a snapshot whose documents
arrive in ascending creation order is kept in ascending order, refuting the
claim that every albums subscription sorts each snapshot descending. -/
theorem c1_counterexample :
    AppV.onAlbumsSnapshot
        [⟨"a1", "Old", some 1⟩, ⟨"a2", "New", some 2⟩]
      = [⟨"a1", "Old", some 1⟩, ⟨"a2", "New", some 2⟩]
    ∧ ¬ List.Pairwise AlbumDescOrder
        (AppV.onAlbumsSnapshot
          [⟨"a1", "Old", some 1⟩, ⟨"a2", "New", some 2⟩]) := by
  constructor
  · rfl
  · intro h
    have := List.rel_of_pairwise_cons h (List.mem_singleton.mpr rfl)
    simp only [AlbumDescOrder, tsKey, Option.getD] at this
    omega

/-- Claim C1 — amended.  In the part_000 variant every albums snapshot is
replaced by exactly the snapshot documents (a permutation) sorted descending
by creation time with null or missing timestamps treated as epoch-earliest;
in the App.jsx variant the list is replaced by the snapshot documents in
snapshot order, with no sorting applied. -/
theorem c1_amended :
    (∀ docs : List AlbumDoc,
      (PartV.onAlbumsSnapshot docs).Perm docs
      ∧ List.Pairwise AlbumDescOrder (PartV.onAlbumsSnapshot docs))
    ∧ (∀ docs : List AlbumDoc, AppV.onAlbumsSnapshot docs = docs) := by
  constructor
  · intro docs
    constructor
    · exact List.mergeSort_perm docs albumLe
    · have h := @List.sorted_mergeSort AlbumDoc albumLe albumLe_trans albumLe_total docs
      exact h.imp (fun hab => by
        simpa only [albumLe, decide_eq_true_eq] using hab)
  · intro docs
    rfl

/-- Remote document store contents relevant to the delete handlers. -/
structure Store where
  albums : List AlbumDoc
  photos : List PhotoDoc
  deriving DecidableEq, Repr

/-- Result of a run of the delete-album try-block: the store afterwards, the
remote calls issued (in program order), and whether the block completed
without raising. -/
structure DelResult where
  store : Store
  calls : List RemoteCall
  ok : Bool
  deriving Repr

/-- Shared semantics of the try-block of `handleDeleteAlbum` (App.jsx lines
755-769, part_000 lines 622-631).  Phase 1 queries the photos whose `albumId`
equals the given id, issues one `deleteDoc` per match (all issued before the
batch is awaited, so each non-failing delete takes effect even when another
one fails), and awaits them with `Promise.all`.  When any issued photo delete
fails the awaited batch raises and phase 2 is skipped; otherwise phase 2
issues the album-document delete, which succeeds when `albumOk` is true.  The
environment function `failPhoto` tells which photo-document deletes fail. -/
def deleteAlbumStore (store : Store) (albumId : String)
    (failPhoto : String → Bool) (albumOk : Bool) : DelResult :=
  let matching := store.photos.filter (fun p => p.albumId == albumId)
  let photoCalls := matching.map (fun p => RemoteCall.deletePhotoDoc p.id)
  let photosAfter :=
    store.photos.filter (fun p => !(p.albumId == albumId) || failPhoto p.id)
  if matching.any (fun p => failPhoto p.id) then
    { store := { store with photos := photosAfter }, calls := photoCalls, ok := false }
  else if albumOk then
    { store := { albums := store.albums.filter (fun a => !(a.id == albumId)),
                 photos := photosAfter },
      calls := photoCalls ++ [RemoteCall.deleteAlbumDoc albumId], ok := true }
  else
    { store := { store with photos := photosAfter },
      calls := photoCalls ++ [RemoteCall.deleteAlbumDoc albumId], ok := false }

/-- Local state visible to the App.jsx admin handlers: the subscribed album
and photo lists held by `App` (`albums`, `photos`) plus the `AdminPanel` form
fields, the latest notification message, and the current user id. -/
structure AdminState where
  albums : List AlbumDoc
  photos : List PhotoDoc
  newAlbumName : String
  newAlbumCoverUrl : String
  newAlbumDescription : String
  selectedAlbumForPhoto : String
  newPhotoUrl : String
  newPhotoTitle : String
  notification : String
  userId : Option String
  deriving DecidableEq, Repr

/-- Local state visible to the part_000 `AdminPage` handlers.  `hasDb` models
whether the Firestore handle `db` is non-null. -/
structure PAdminState where
  albums : List AlbumDoc
  photos : List PhotoDoc
  albumName : String
  albumThumbnailUrl : String
  selectedAlbumForPhoto : String
  photoImageUrl : String
  photoCaption : String
  message : String
  userId : Option String
  hasDb : Bool
  deriving DecidableEq, Repr

namespace AppV

/-- Model of `handleCreateAlbum` in App.jsx (lines 683-712).  Remote-error
notifications keep only the literal prefix of the interpolated message.
`remoteOk` tells whether the `addDoc` call is accepted by the store. -/
def handleCreateAlbum (st : AdminState) (remoteOk : Bool) :
    AdminState × List RemoteCall :=
  if jsTrim st.newAlbumName = "" ∨ jsTrim st.newAlbumCoverUrl = "" then
    ({ st with notification := "Album name and cover URL are required." }, [])
  else
    match st.userId with
    | none =>
      ({ st with notification := "User not authenticated. Cannot create album." }, [])
    | some uid =>
      let payload : NewAlbumApp :=
        { name := st.newAlbumName, coverImageUrl := st.newAlbumCoverUrl,
          description := st.newAlbumDescription,
          createdAt := TsWrite.clientNow, createdBy := uid }
      if remoteOk then
        ({ st with notification := "Album created successfully!",
                   newAlbumName := "", newAlbumCoverUrl := "",
                   newAlbumDescription := "" },
         [RemoteCall.createAlbumApp payload])
      else
        ({ st with notification := "Error creating album: " },
         [RemoteCall.createAlbumApp payload])

/-- Model of `handleAddPhoto` in App.jsx (lines 715-744). -/
def handleAddPhoto (st : AdminState) (remoteOk : Bool) :
    AdminState × List RemoteCall :=
  if st.selectedAlbumForPhoto = "" ∨ jsTrim st.newPhotoUrl = "" then
    ({ st with notification := "Please select an album and provide a photo URL." }, [])
  else
    match st.userId with
    | none =>
      ({ st with notification := "User not authenticated. Cannot add photo." }, [])
    | some uid =>
      let payload : NewPhotoApp :=
        { albumId := st.selectedAlbumForPhoto, imageUrl := st.newPhotoUrl,
          title := st.newPhotoTitle,
          uploadedAt := TsWrite.clientNow, uploadedBy := uid }
      if remoteOk then
        ({ st with notification := "Photo added successfully!",
                   newPhotoUrl := "", newPhotoTitle := "" },
         [RemoteCall.createPhotoApp payload])
      else
        ({ st with notification := "Error adding photo: " },
         [RemoteCall.createPhotoApp payload])

/-- Model of `handleDeleteAlbum` in App.jsx (lines 747-775).  `confirmOk`
models the `confirm(...)` dialog. -/
def handleDeleteAlbum (st : AdminState) (store : Store) (albumId : String)
    (confirmOk : Bool) (failPhoto : String → Bool) (albumOk : Bool) :
    AdminState × Store × List RemoteCall :=
  if confirmOk then
    let r := deleteAlbumStore store albumId failPhoto albumOk
    if r.ok then
      ({ st with notification := "Album and its photos deleted successfully!" },
       r.store, r.calls)
    else
      ({ st with notification := "Error deleting album: " }, r.store, r.calls)
  else
    (st, store, [])

/-- Model of `handleDeletePhoto` in App.jsx (lines 778-792). -/
def handleDeletePhoto (st : AdminState) (store : Store) (photoId : String)
    (confirmOk remoteOk : Bool) :
    AdminState × Store × List RemoteCall :=
  if confirmOk then
    if remoteOk then
      ({ st with notification := "Photo deleted successfully!" },
       { store with photos := store.photos.filter (fun p => !(p.id == photoId)) },
       [RemoteCall.deletePhotoDoc photoId])
    else
      ({ st with notification := "Error deleting photo: " }, store,
       [RemoteCall.deletePhotoDoc photoId])
  else
    (st, store, [])

end AppV

namespace PartV

/-- Model of `handleAddAlbum` in part_000 (lines 561-582). -/
def handleAddAlbum (st : PAdminState) (remoteOk : Bool) :
    PAdminState × List RemoteCall :=
  if ¬ st.hasDb ∨ jsTrim st.albumName = "" ∨ jsTrim st.albumThumbnailUrl = "" then
    ({ st with message := "Album name and thumbnail URL are required." }, [])
  else
    let payload : NewAlbumPart :=
      { name := st.albumName, thumbnailUrl := st.albumThumbnailUrl,
        timestamp := TsWrite.serverTimestamp, createdBy := st.userId }
    if remoteOk then
      ({ st with albumName := "", albumThumbnailUrl := "",
                 message := "Album added successfully!" },
       [RemoteCall.createAlbumPart payload])
    else
      ({ st with message := "Error adding album: " },
       [RemoteCall.createAlbumPart payload])

/-- Model of `handleAddPhoto` in part_000 (lines 588-610). -/
def handleAddPhoto (st : PAdminState) (remoteOk : Bool) :
    PAdminState × List RemoteCall :=
  if ¬ st.hasDb ∨ st.selectedAlbumForPhoto = "" ∨ jsTrim st.photoImageUrl = "" then
    ({ st with message := "Please select an album and provide an image URL." }, [])
  else
    let payload : NewPhotoPart :=
      { albumId := st.selectedAlbumForPhoto, imageUrl := st.photoImageUrl,
        caption := st.photoCaption,
        timestamp := TsWrite.serverTimestamp, createdBy := st.userId }
    if remoteOk then
      ({ st with photoImageUrl := "", photoCaption := "",
                 message := "Photo added successfully!" },
       [RemoteCall.createPhotoPart payload])
    else
      ({ st with message := "Error adding photo: " },
       [RemoteCall.createPhotoPart payload])

/-- Model of `handleDeleteAlbum` in part_000 (lines 616-636). -/
def handleDeleteAlbum (st : PAdminState) (store : Store) (albumId : String)
    (confirmOk : Bool) (failPhoto : String → Bool) (albumOk : Bool) :
    PAdminState × Store × List RemoteCall :=
  if st.hasDb then
    if confirmOk then
      let r := deleteAlbumStore store albumId failPhoto albumOk
      if r.ok then
        ({ st with message := "Album and associated photos deleted successfully!" },
         r.store, r.calls)
      else
        ({ st with message := "Error deleting album: " }, r.store, r.calls)
    else
      (st, store, [])
  else
    (st, store, [])

/-- Model of `handleDeletePhoto` in part_000 (lines 642-655). -/
def handleDeletePhoto (st : PAdminState) (store : Store) (photoId : String)
    (confirmOk remoteOk : Bool) :
    PAdminState × Store × List RemoteCall :=
  if st.hasDb then
    if confirmOk then
      if remoteOk then
        ({ st with message := "Photo deleted successfully!" },
         { store with photos := store.photos.filter (fun p => !(p.id == photoId)) },
         [RemoteCall.deletePhotoDoc photoId])
      else
        ({ st with message := "Error deleting photo: " }, store,
         [RemoteCall.deletePhotoDoc photoId])
    else
      (st, store, [])
  else
    (st, store, [])

end PartV

theorem any_fail_false_of_all_ok (store : Store) (albumId : String)
    (failPhoto : String → Bool)
    (h : ∀ p ∈ store.photos, p.albumId = albumId → failPhoto p.id = false) :
    (store.photos.filter (fun p => p.albumId == albumId)).any
      (fun p => failPhoto p.id) = false := by
  rw [List.any_eq_false]
  intro p hp
  rcases List.mem_filter.mp hp with ⟨hmem, hid⟩
  rw [beq_iff_eq] at hid
  simp [h p hmem hid]

/-- Claim C2 — deleteAlbum proceeds in two phases: phase 1 issues one delete
per photo whose `albumId` matches and awaits all of them, phase 2 then deletes
the album document; when every phase-1 delete succeeds (and the awaited album
delete takes effect), no photo with that `albumId` remains and the album is
absent. -/
theorem c2_deleteAlbum_two_phase (store : Store) (albumId : String)
    (failPhoto : String → Bool)
    (h : ∀ p ∈ store.photos, p.albumId = albumId → failPhoto p.id = false) :
    (deleteAlbumStore store albumId failPhoto true).calls
      = (store.photos.filter (fun p => p.albumId == albumId)).map
          (fun p => RemoteCall.deletePhotoDoc p.id)
        ++ [RemoteCall.deleteAlbumDoc albumId]
    ∧ (∀ p ∈ (deleteAlbumStore store albumId failPhoto true).store.photos,
        p.albumId ≠ albumId)
    ∧ (∀ a ∈ (deleteAlbumStore store albumId failPhoto true).store.albums,
        a.id ≠ albumId) := by
  have hany := any_fail_false_of_all_ok store albumId failPhoto h
  refine ⟨?_, ?_, ?_⟩
  · simp [deleteAlbumStore, hany]
  · intro p hp
    simp only [deleteAlbumStore, hany] at hp
    simp only [Bool.false_eq_true, if_false, if_true] at hp
    rcases List.mem_filter.mp hp with ⟨hmem, hcond⟩
    intro hid
    have hfail := h p hmem hid
    simp [hid, hfail] at hcond
  · intro a ha
    simp only [deleteAlbumStore, hany] at ha
    simp only [Bool.false_eq_true, if_false, if_true] at ha
    rcases List.mem_filter.mp ha with ⟨_, hcond⟩
    intro hid
    simp [hid] at hcond

/-- Concrete store used to witness claim C2: one album with two photos plus an
unrelated photo. -/
def c2Store : Store :=
  { albums := [⟨"alb1", "Trip", some 5⟩],
    photos := [⟨"p1", "alb1", some 1⟩, ⟨"p2", "alb1", some 2⟩,
               ⟨"p3", "other", some 3⟩] }

theorem c2_deleteAlbum_two_phase_witness :
    (∀ p ∈ c2Store.photos, p.albumId = "alb1" → (fun _ => false) p.id = false)
    ∧ ((deleteAlbumStore c2Store "alb1" (fun _ => false) true).calls
        = (c2Store.photos.filter (fun p => p.albumId == "alb1")).map
            (fun p => RemoteCall.deletePhotoDoc p.id)
          ++ [RemoteCall.deleteAlbumDoc "alb1"]
      ∧ (∀ p ∈ (deleteAlbumStore c2Store "alb1" (fun _ => false) true).store.photos,
          p.albumId ≠ "alb1")
      ∧ (∀ a ∈ (deleteAlbumStore c2Store "alb1" (fun _ => false) true).store.albums,
          a.id ≠ "alb1")) :=
  ⟨by decide, c2_deleteAlbum_two_phase c2Store "alb1" (fun _ => false) (by decide)⟩

/-- Claim C3 — when any phase-1 photo delete fails, the awaited batch raises
and phase 2 is aborted: no album-document delete is issued, the album list of
the store is unchanged, and in both variants the failure is converted into a
user-visible notice by the surrounding catch instead of propagating. -/
theorem c3_phase1_failure_aborts_phase2
    (st : AdminState) (pst : PAdminState) (store : Store) (albumId : String)
    (failPhoto : String → Bool) (albumOk : Bool) (p : PhotoDoc)
    (hmem : p ∈ store.photos) (hmatch : p.albumId = albumId)
    (hfail : failPhoto p.id = true) (hdb : pst.hasDb = true) :
    (∀ i, RemoteCall.deleteAlbumDoc i
        ∉ (deleteAlbumStore store albumId failPhoto albumOk).calls)
    ∧ (deleteAlbumStore store albumId failPhoto albumOk).store.albums
        = store.albums
    ∧ (AppV.handleDeleteAlbum st store albumId true failPhoto albumOk).1.notification
        = "Error deleting album: "
    ∧ (PartV.handleDeleteAlbum pst store albumId true failPhoto albumOk).1.message
        = "Error deleting album: " := by
  have hany : (store.photos.filter (fun q => q.albumId == albumId)).any
      (fun q => failPhoto q.id) = true := by
    rw [List.any_eq_true]
    exact ⟨p, List.mem_filter.mpr ⟨hmem, by simp [hmatch]⟩, hfail⟩
  refine ⟨?_, ?_, ?_, ?_⟩
  · intro i hi
    simp only [deleteAlbumStore, hany, if_true] at hi
    rcases List.mem_map.mp hi with ⟨q, _, hq⟩
    exact RemoteCall.noConfusion hq
  · simp [deleteAlbumStore, hany]
  · simp [AppV.handleDeleteAlbum, deleteAlbumStore, hany]
  · simp [PartV.handleDeleteAlbum, deleteAlbumStore, hany, hdb]

/-- Concrete admin states and store used to witness claim C3. -/
def c3AdminState : AdminState :=
  { albums := [], photos := [], newAlbumName := "", newAlbumCoverUrl := "",
    newAlbumDescription := "", selectedAlbumForPhoto := "", newPhotoUrl := "",
    newPhotoTitle := "", notification := "", userId := some "user-1" }

def c3PAdminState : PAdminState :=
  { albums := [], photos := [], albumName := "", albumThumbnailUrl := "",
    selectedAlbumForPhoto := "", photoImageUrl := "", photoCaption := "",
    message := "", userId := some "user-1", hasDb := true }

def c3Store : Store :=
  { albums := [⟨"alb1", "Trip", some 5⟩],
    photos := [⟨"p1", "alb1", some 1⟩, ⟨"p2", "alb1", some 2⟩] }

theorem c3_phase1_failure_aborts_phase2_witness :
    ((⟨"p1", "alb1", some 1⟩ : PhotoDoc) ∈ c3Store.photos
      ∧ (⟨"p1", "alb1", some 1⟩ : PhotoDoc).albumId = "alb1"
      ∧ (fun i => i == "p1") (⟨"p1", "alb1", some 1⟩ : PhotoDoc).id = true
      ∧ c3PAdminState.hasDb = true)
    ∧ ((∀ i, RemoteCall.deleteAlbumDoc i
          ∉ (deleteAlbumStore c3Store "alb1" (fun i => i == "p1") true).calls)
      ∧ (deleteAlbumStore c3Store "alb1" (fun i => i == "p1") true).store.albums
          = c3Store.albums
      ∧ (AppV.handleDeleteAlbum c3AdminState c3Store "alb1" true
            (fun i => i == "p1") true).1.notification = "Error deleting album: "
      ∧ (PartV.handleDeleteAlbum c3PAdminState c3Store "alb1" true
            (fun i => i == "p1") true).1.message = "Error deleting album: ") :=
  ⟨by refine ⟨by decide, by decide, by decide, by decide⟩,
   c3_phase1_failure_aborts_phase2 c3AdminState c3PAdminState c3Store "alb1"
     (fun i => i == "p1") true ⟨"p1", "alb1", some 1⟩
     (by decide) (by decide) (by decide) (by decide)⟩

/-- Claim C4 — a createAlbum input with an empty name or empty image-URL field
is rejected locally with the validation notice and issues no remote call, in
both variants; and whenever a remote create call is issued both fields were
non-empty. -/
theorem c4_create_validation
    (st : AdminState) (pst : PAdminState) (remoteOk : Bool)
    (happ : st.newAlbumName = "" ∨ st.newAlbumCoverUrl = "")
    (hpart : pst.albumName = "" ∨ pst.albumThumbnailUrl = "") :
    ((AppV.handleCreateAlbum st remoteOk).2 = []
      ∧ (AppV.handleCreateAlbum st remoteOk).1.notification
          = "Album name and cover URL are required.")
    ∧ ((PartV.handleAddAlbum pst remoteOk).2 = []
      ∧ (PartV.handleAddAlbum pst remoteOk).1.message
          = "Album name and thumbnail URL are required.")
    ∧ (∀ (st' : AdminState) (ok : Bool), (AppV.handleCreateAlbum st' ok).2 ≠ [] →
        st'.newAlbumName ≠ "" ∧ st'.newAlbumCoverUrl ≠ "")
    ∧ (∀ (pst' : PAdminState) (ok : Bool), (PartV.handleAddAlbum pst' ok).2 ≠ [] →
        pst'.albumName ≠ "" ∧ pst'.albumThumbnailUrl ≠ "") := by
  have htapp : jsTrim st.newAlbumName = "" ∨ jsTrim st.newAlbumCoverUrl = "" := by
    rcases happ with h | h <;> rw [h] <;> [exact Or.inl jsTrim_empty;
      exact Or.inr jsTrim_empty]
  have htpart : pst.hasDb = false ∨ jsTrim pst.albumName = ""
      ∨ jsTrim pst.albumThumbnailUrl = "" := by
    rcases hpart with h | h <;> rw [h] <;>
      [exact Or.inr (Or.inl jsTrim_empty); exact Or.inr (Or.inr jsTrim_empty)]
  refine ⟨?_, ?_, ?_, ?_⟩
  · simp [AppV.handleCreateAlbum, htapp]
  · simp [PartV.handleAddAlbum, htpart]
  · intro st' ok hne
    by_cases hg : jsTrim st'.newAlbumName = "" ∨ jsTrim st'.newAlbumCoverUrl = ""
    · simp [AppV.handleCreateAlbum, hg] at hne
    · push_neg at hg
      exact ⟨ne_empty_of_jsTrim_ne_empty _ hg.1, ne_empty_of_jsTrim_ne_empty _ hg.2⟩
  · intro pst' ok hne
    by_cases hg : pst'.hasDb = false ∨ jsTrim pst'.albumName = ""
        ∨ jsTrim pst'.albumThumbnailUrl = ""
    · simp [PartV.handleAddAlbum, hg] at hne
    · push_neg at hg
      exact ⟨ne_empty_of_jsTrim_ne_empty _ hg.2.1,
             ne_empty_of_jsTrim_ne_empty _ hg.2.2⟩

/-- Concrete admin states used to witness claim C4: the name fields are empty
while the other fields are populated. -/
def c4AdminState : AdminState :=
  { albums := [], photos := [], newAlbumName := "",
    newAlbumCoverUrl := "http://x/a.jpg", newAlbumDescription := "d",
    selectedAlbumForPhoto := "", newPhotoUrl := "", newPhotoTitle := "",
    notification := "", userId := some "user-1" }

def c4PAdminState : PAdminState :=
  { albums := [], photos := [], albumName := "",
    albumThumbnailUrl := "http://x/t.jpg", selectedAlbumForPhoto := "",
    photoImageUrl := "", photoCaption := "", message := "",
    userId := some "user-1", hasDb := true }

theorem c4_create_validation_witness :
    (c4AdminState.newAlbumName = "" ∨ c4AdminState.newAlbumCoverUrl = "")
    ∧ (c4PAdminState.albumName = "" ∨ c4PAdminState.albumThumbnailUrl = "")
    ∧ ((AppV.handleCreateAlbum c4AdminState true).2 = []
      ∧ (AppV.handleCreateAlbum c4AdminState true).1.notification
          = "Album name and cover URL are required.") :=
  ⟨Or.inl rfl, Or.inl rfl,
   (c4_create_validation c4AdminState c4PAdminState true (Or.inl rfl)
      (Or.inl rfl)).1⟩

/-- Concrete admin state with valid fields and an authenticated user, used for
claim C6. -/
def c6AdminState : AdminState :=
  { albums := [], photos := [], newAlbumName := "Trip",
    newAlbumCoverUrl := "http://x/a.jpg", newAlbumDescription := "",
    selectedAlbumForPhoto := "", newPhotoUrl := "", newPhotoTitle := "",
    notification := "", userId := some "user-1" }

/-- Claim C6 — counterexample.  A successful createAlbum in the App.jsx
variant issues its single create call with `createdAt: new Date()`, a
client-generated timestamp, not the server-generated sentinel the claim
requires. -/
theorem c6_counterexample :
    (AppV.handleCreateAlbum c6AdminState true).2
      = [RemoteCall.createAlbumApp
          { name := "Trip", coverImageUrl := "http://x/a.jpg", description := "",
            createdAt := TsWrite.clientNow, createdBy := "user-1" }]
    ∧ TsWrite.clientNow ≠ TsWrite.serverTimestamp := by
  refine ⟨?_, by decide⟩
  decide

/-- Claim C6 — amended.  Every successful createAlbum or addPhoto issues
exactly one remote create call whose creator field is the current identity's
user id; the timestamp written is the server-generated sentinel in the
part_000 variant but a client-generated date in the App.jsx variant. -/
theorem c6_amended :
    (∀ (st : AdminState) (uid : String) (ok : Bool),
      st.userId = some uid →
      jsTrim st.newAlbumName ≠ "" → jsTrim st.newAlbumCoverUrl ≠ "" →
      (AppV.handleCreateAlbum st ok).2
        = [RemoteCall.createAlbumApp
            { name := st.newAlbumName, coverImageUrl := st.newAlbumCoverUrl,
              description := st.newAlbumDescription,
              createdAt := TsWrite.clientNow, createdBy := uid }])
    ∧ (∀ (st : AdminState) (uid : String) (ok : Bool),
      st.userId = some uid →
      st.selectedAlbumForPhoto ≠ "" → jsTrim st.newPhotoUrl ≠ "" →
      (AppV.handleAddPhoto st ok).2
        = [RemoteCall.createPhotoApp
            { albumId := st.selectedAlbumForPhoto, imageUrl := st.newPhotoUrl,
              title := st.newPhotoTitle,
              uploadedAt := TsWrite.clientNow, uploadedBy := uid }])
    ∧ (∀ (pst : PAdminState) (ok : Bool),
      pst.hasDb = true →
      jsTrim pst.albumName ≠ "" → jsTrim pst.albumThumbnailUrl ≠ "" →
      (PartV.handleAddAlbum pst ok).2
        = [RemoteCall.createAlbumPart
            { name := pst.albumName, thumbnailUrl := pst.albumThumbnailUrl,
              timestamp := TsWrite.serverTimestamp, createdBy := pst.userId }])
    ∧ (∀ (pst : PAdminState) (ok : Bool),
      pst.hasDb = true →
      pst.selectedAlbumForPhoto ≠ "" → jsTrim pst.photoImageUrl ≠ "" →
      (PartV.handleAddPhoto pst ok).2
        = [RemoteCall.createPhotoPart
            { albumId := pst.selectedAlbumForPhoto, imageUrl := pst.photoImageUrl,
              caption := pst.photoCaption,
              timestamp := TsWrite.serverTimestamp, createdBy := pst.userId }]) := by
  refine ⟨?_, ?_, ?_, ?_⟩
  · intro st uid ok huid h1 h2
    cases ok <;> simp [AppV.handleCreateAlbum, huid, h1, h2]
  · intro st uid ok huid h1 h2
    cases ok <;> simp [AppV.handleAddPhoto, huid, h1, h2]
  · intro pst ok hdb h1 h2
    cases ok <;> simp [PartV.handleAddAlbum, hdb, h1, h2]
  · intro pst ok hdb h1 h2
    cases ok <;> simp [PartV.handleAddPhoto, hdb, h1, h2]

theorem c6_amended_witness :
    (c6AdminState.userId = some "user-1"
      ∧ jsTrim c6AdminState.newAlbumName ≠ ""
      ∧ jsTrim c6AdminState.newAlbumCoverUrl ≠ "")
    ∧ (AppV.handleCreateAlbum c6AdminState true).2
        = [RemoteCall.createAlbumApp
            { name := c6AdminState.newAlbumName,
              coverImageUrl := c6AdminState.newAlbumCoverUrl,
              description := c6AdminState.newAlbumDescription,
              createdAt := TsWrite.clientNow, createdBy := "user-1" }] :=
  ⟨⟨by decide, by decide, by decide⟩,
   c6_amended.1 c6AdminState "user-1" true (by decide) (by decide) (by decide)⟩

/-- Synchronous body of the photos-by-album `useEffect` in App.jsx
(lines 100-119) as it acts on the in-memory photos list: when auth is not
ready or no album is selected it clears the list with `setPhotos([])`
(line 102) and opens no subscription (returned flag `false`); otherwise it
leaves the list untouched and opens the filtered subscription (returned flag
`true`), whose later snapshot callbacks are what replace the list. -/
def AppV.photosEffectBody (authReady : Bool) (selectedAlbumId : Option String)
    (photos : List PhotoDoc) : List PhotoDoc × Bool :=
  if authReady then
    match selectedAlbumId with
    | some _ => (photos, true)
    | none => ([], false)
  else ([], false)

/-- Claim C9 — counterexample.  The photos-by-album effect of App.jsx clears
the in-memory photos list with `setPhotos([])` (line 102) in its own effect
body whenever auth is not ready or no album is selected: here a run of the
effect with no album selected empties a non-empty photos list while opening
no subscription, so this list change is applied outside any subscription
snapshot callback, refuting the claim that every change to the lists is
applied only inside one. -/
theorem c9_counterexample :
    (AppV.photosEffectBody true none [⟨"p1", "alb1", some 1⟩]).1 = []
    ∧ ([⟨"p1", "alb1", some 1⟩] : List PhotoDoc) ≠ []
    ∧ (AppV.photosEffectBody true none [⟨"p1", "alb1", some 1⟩]).2 = false := by
  decide

/-- Claim C9 — amended.  No create or delete operation mutates the in-memory
album or photo lists: in both variants each of the four handlers leaves the
subscribed `albums` and `photos` state fields exactly as they were.  List
changes otherwise arrive through the subscription snapshot callbacks, with
one exception: the App.jsx photos-by-album effect body either leaves the
photos list unchanged and opens the subscription, or — when auth is not ready
or no album is selected — itself clears the list to empty, outside any
snapshot callback. -/
theorem c9_no_optimistic_update :
    (∀ (st : AdminState) (ok : Bool),
      (AppV.handleCreateAlbum st ok).1.albums = st.albums
      ∧ (AppV.handleCreateAlbum st ok).1.photos = st.photos)
    ∧ (∀ (st : AdminState) (ok : Bool),
      (AppV.handleAddPhoto st ok).1.albums = st.albums
      ∧ (AppV.handleAddPhoto st ok).1.photos = st.photos)
    ∧ (∀ (st : AdminState) (store : Store) (aid : String) (c : Bool)
        (f : String → Bool) (ok : Bool),
      (AppV.handleDeleteAlbum st store aid c f ok).1.albums = st.albums
      ∧ (AppV.handleDeleteAlbum st store aid c f ok).1.photos = st.photos)
    ∧ (∀ (st : AdminState) (store : Store) (pid : String) (c ok : Bool),
      (AppV.handleDeletePhoto st store pid c ok).1.albums = st.albums
      ∧ (AppV.handleDeletePhoto st store pid c ok).1.photos = st.photos)
    ∧ (∀ (pst : PAdminState) (ok : Bool),
      (PartV.handleAddAlbum pst ok).1.albums = pst.albums
      ∧ (PartV.handleAddAlbum pst ok).1.photos = pst.photos)
    ∧ (∀ (pst : PAdminState) (ok : Bool),
      (PartV.handleAddPhoto pst ok).1.albums = pst.albums
      ∧ (PartV.handleAddPhoto pst ok).1.photos = pst.photos)
    ∧ (∀ (pst : PAdminState) (store : Store) (aid : String) (c : Bool)
        (f : String → Bool) (ok : Bool),
      (PartV.handleDeleteAlbum pst store aid c f ok).1.albums = pst.albums
      ∧ (PartV.handleDeleteAlbum pst store aid c f ok).1.photos = pst.photos)
    ∧ (∀ (pst : PAdminState) (store : Store) (pid : String) (c ok : Bool),
      (PartV.handleDeletePhoto pst store pid c ok).1.albums = pst.albums
      ∧ (PartV.handleDeletePhoto pst store pid c ok).1.photos = pst.photos)
    ∧ (∀ (r : Bool) (sel : Option String) (photos : List PhotoDoc),
      ((AppV.photosEffectBody r sel photos).1 = photos
        ∧ (AppV.photosEffectBody r sel photos).2 = true)
      ∨ ((AppV.photosEffectBody r sel photos).1 = []
        ∧ (AppV.photosEffectBody r sel photos).2 = false)) := by
  have heff : ∀ (r : Bool) (sel : Option String) (photos : List PhotoDoc),
      ((AppV.photosEffectBody r sel photos).1 = photos
        ∧ (AppV.photosEffectBody r sel photos).2 = true)
      ∨ ((AppV.photosEffectBody r sel photos).1 = []
        ∧ (AppV.photosEffectBody r sel photos).2 = false) := by
    intro r sel photos
    cases r with
    | false => exact Or.inr ⟨rfl, rfl⟩
    | true =>
      cases sel with
      | some aid => exact Or.inl ⟨rfl, rfl⟩
      | none => exact Or.inr ⟨rfl, rfl⟩
  refine ⟨?_, ?_, ?_, ?_, ?_, ?_, ?_, ?_, heff⟩
  all_goals intros
  all_goals constructor <;>
    first
      | (simp only [AppV.handleCreateAlbum]; repeat' split) <;> rfl
      | (simp only [AppV.handleAddPhoto]; repeat' split) <;> rfl
      | (simp only [AppV.handleDeleteAlbum]; repeat' split) <;> rfl
      | (simp only [AppV.handleDeletePhoto]; repeat' split) <;> rfl
      | (simp only [PartV.handleAddAlbum]; repeat' split) <;> rfl
      | (simp only [PartV.handleAddPhoto]; repeat' split) <;> rfl
      | (simp only [PartV.handleDeleteAlbum]; repeat' split) <;> rfl
      | (simp only [PartV.handleDeletePhoto]; repeat' split) <;> rfl

/-- Claim C10 — the validation of both variants trims each field before the
emptiness check, so a whitespace-only name or image-URL field is rejected
locally with the validation notice and no remote call is issued. -/
theorem c10_whitespace_only_rejected :
    (∀ (st : AdminState) (ok : Bool),
      (∀ c ∈ st.newAlbumName.toList, isJsSpace c = true) →
      (AppV.handleCreateAlbum st ok).2 = []
      ∧ (AppV.handleCreateAlbum st ok).1.notification
          = "Album name and cover URL are required.")
    ∧ (∀ (st : AdminState) (ok : Bool),
      (∀ c ∈ st.newAlbumCoverUrl.toList, isJsSpace c = true) →
      (AppV.handleCreateAlbum st ok).2 = []
      ∧ (AppV.handleCreateAlbum st ok).1.notification
          = "Album name and cover URL are required.")
    ∧ (∀ (st : AdminState) (ok : Bool),
      (∀ c ∈ st.newPhotoUrl.toList, isJsSpace c = true) →
      (AppV.handleAddPhoto st ok).2 = []
      ∧ (AppV.handleAddPhoto st ok).1.notification
          = "Please select an album and provide a photo URL.")
    ∧ (∀ (pst : PAdminState) (ok : Bool),
      (∀ c ∈ pst.albumName.toList, isJsSpace c = true) →
      (PartV.handleAddAlbum pst ok).2 = []
      ∧ (PartV.handleAddAlbum pst ok).1.message
          = "Album name and thumbnail URL are required.")
    ∧ (∀ (pst : PAdminState) (ok : Bool),
      (∀ c ∈ pst.albumThumbnailUrl.toList, isJsSpace c = true) →
      (PartV.handleAddAlbum pst ok).2 = []
      ∧ (PartV.handleAddAlbum pst ok).1.message
          = "Album name and thumbnail URL are required.")
    ∧ (∀ (pst : PAdminState) (ok : Bool),
      (∀ c ∈ pst.photoImageUrl.toList, isJsSpace c = true) →
      (PartV.handleAddPhoto pst ok).2 = []
      ∧ (PartV.handleAddPhoto pst ok).1.message
          = "Please select an album and provide an image URL.") := by
  refine ⟨?_, ?_, ?_, ?_, ?_, ?_⟩ <;> intro s ok h <;>
    have ht := jsTrim_of_all_space _ h
  · simp [AppV.handleCreateAlbum, ht]
  · simp [AppV.handleCreateAlbum, ht]
  · simp [AppV.handleAddPhoto, ht]
  · simp [PartV.handleAddAlbum, ht]
  · simp [PartV.handleAddAlbum, ht]
  · simp [PartV.handleAddPhoto, ht]

/-- Concrete admin state whose album name is three spaces, used to witness
claim C10. -/
def c10AdminState : AdminState :=
  { albums := [], photos := [], newAlbumName := "   ",
    newAlbumCoverUrl := "http://x/a.jpg", newAlbumDescription := "",
    selectedAlbumForPhoto := "", newPhotoUrl := "", newPhotoTitle := "",
    notification := "", userId := some "user-1" }

theorem c10_whitespace_only_rejected_witness :
    (∀ c ∈ c10AdminState.newAlbumName.toList, isJsSpace c = true)
    ∧ ((AppV.handleCreateAlbum c10AdminState true).2 = []
      ∧ (AppV.handleCreateAlbum c10AdminState true).1.notification
          = "Album name and cover URL are required.") :=
  ⟨by decide, c10_whitespace_only_rejected.1 c10AdminState true (by decide)⟩

/-- Observable events of the identity bootstrap and subscription layer: the
sign-in attempt actually issued, the authReady transition, and the opening of
each kind of data subscription (albums collection, single album document,
photos collection or filtered photos query), tagged with the user id current
at that moment. -/
inductive Obs
  | ready
  | subscribeAlbums (uid : Option String)
  | subscribeAlbumDoc (uid : Option String)
  | subscribePhotos (uid : Option String)
  | attemptTokenSignIn
  | attemptAnonSignIn
  deriving DecidableEq, Repr

/-- Bootstrap-relevant state of the App.jsx `App` component. -/
structure AuthStApp where
  authReady : Bool
  userId : Option String
  deriving DecidableEq, Repr

/-- Environment events driving the App.jsx bootstrap: an `onAuthStateChanged`
callback (with the user it reports, whether a pre-supplied token is present,
and whether the issued sign-in attempt throws), a run of the albums
`useEffect` (lines 82-97), and a run of the photos-by-album `useEffect`
(lines 100-119) with the album id currently selected. -/
inductive EvApp
  | authCallback (user : Option String) (tokenPresent : Bool) (signInThrows : Bool)
  | albumsEffect
  | photosEffect (selectedAlbumId : Option String)
  deriving DecidableEq, Repr

/-- One step of the App.jsx bootstrap (lines 43-71 and 82-119).  On a callback
with no user the code attempts token sign-in when a token is present and
anonymous sign-in otherwise; whether or not the attempt throws (the catch only
shows a notification), it then sets `userId` to null and `authReady` to true.
The albums effect opens its subscription only when `authReady` is true; the
photos effect opens its filtered subscription only when `authReady` is true
and an album is selected (otherwise it bails out, clearing the photos list —
see `AppV.photosEffectBody`). -/
def stepApp (st : AuthStApp) (ev : EvApp) : AuthStApp × List Obs :=
  match ev with
  | .authCallback user tokenPresent _signInThrows =>
    match user with
    | some u =>
      ({ authReady := true, userId := some u },
       if st.authReady then [] else [Obs.ready])
    | none =>
      let attempt :=
        if tokenPresent then Obs.attemptTokenSignIn else Obs.attemptAnonSignIn
      ({ authReady := true, userId := none },
       attempt :: (if st.authReady then [] else [Obs.ready]))
  | .albumsEffect =>
    if st.authReady then (st, [Obs.subscribeAlbums st.userId]) else (st, [])
  | .photosEffect selectedAlbumId =>
    if st.authReady then
      match selectedAlbumId with
      | some _ => (st, [Obs.subscribePhotos st.userId])
      | none => (st, [])
    else (st, [])

/-- Run of the App.jsx bootstrap from a given state, collecting the observable
events in order. -/
def runApp : AuthStApp → List EvApp → AuthStApp × List Obs
  | st, [] => (st, [])
  | st, ev :: rest =>
    let r := stepApp st ev
    let r2 := runApp r.1 rest
    (r2.1, r.2 ++ r2.2)

/-- Run of the App.jsx bootstrap from the initial component state. -/
def runApp0 (evs : List EvApp) : AuthStApp × List Obs :=
  runApp { authReady := false, userId := none } evs

/-- Bootstrap-relevant state of the part_000 `App` component.  `hasDb` models
whether the Firestore handle has been set. -/
structure AuthStPart where
  hasDb : Bool
  isAuthReady : Bool
  userId : Option String
  deriving DecidableEq, Repr

/-- Environment events driving the part_000 bootstrap: Firebase
initialization succeeding or throwing, an `onAuthStateChanged` callback (with
the locally generated uuid used if the fallback triggers), a run of the
albums effect of `HomePage` (lines 200-215; `GalleryPage` lines 307-321 is
identical), a run of the `AlbumDetailPage` effect (lines 348-380) with the
album id it was given, and a run of the `AdminPage` effect (lines 527-555). -/
inductive EvPart
  | initOk
  | initFail
  | authCallback (user : Option String) (tokenPresent : Bool)
      (signInThrows : Bool) (randomUid : String)
  | homeEffect
  | albumDetailEffect (albumId : Option String)
  | adminEffect
  deriving DecidableEq, Repr

/-- One step of the part_000 bootstrap (lines 27-75, 200-215, 348-380 and
527-555).  On a callback with no user the code attempts token sign-in when a
token is present and anonymous sign-in otherwise; only when the attempt
throws does it fall back to the locally generated random uuid and set
`isAuthReady`; on a non-throwing attempt it changes nothing (the signed-in
user arrives through a later callback).  Each data effect opens its
subscriptions only when the Firestore handle is set and `isAuthReady` is
true: the home/gallery effect subscribes to the albums collection, the
album-detail effect (when given an album id) subscribes to the single album
document and to the filtered photos query, and the admin effect subscribes to
the albums and photos collections. -/
def stepPart (st : AuthStPart) (ev : EvPart) : AuthStPart × List Obs :=
  match ev with
  | .initOk => ({ st with hasDb := true }, [])
  | .initFail =>
    ({ st with isAuthReady := true },
     if st.isAuthReady then [] else [Obs.ready])
  | .authCallback user tokenPresent signInThrows randomUid =>
    match user with
    | some u =>
      ({ st with userId := some u, isAuthReady := true },
       if st.isAuthReady then [] else [Obs.ready])
    | none =>
      let attempt :=
        if tokenPresent then Obs.attemptTokenSignIn else Obs.attemptAnonSignIn
      if signInThrows then
        ({ st with userId := some randomUid, isAuthReady := true },
         attempt :: (if st.isAuthReady then [] else [Obs.ready]))
      else
        (st, [attempt])
  | .homeEffect =>
    if st.hasDb && st.isAuthReady then
      (st, [Obs.subscribeAlbums st.userId])
    else
      (st, [])
  | .albumDetailEffect albumId =>
    if st.hasDb && st.isAuthReady then
      match albumId with
      | some _ =>
        (st, [Obs.subscribeAlbumDoc st.userId, Obs.subscribePhotos st.userId])
      | none => (st, [])
    else (st, [])
  | .adminEffect =>
    if st.hasDb && st.isAuthReady then
      (st, [Obs.subscribeAlbums st.userId, Obs.subscribePhotos st.userId])
    else (st, [])

/-- Run of the part_000 bootstrap from a given state. -/
def runPart : AuthStPart → List EvPart → AuthStPart × List Obs
  | st, [] => (st, [])
  | st, ev :: rest =>
    let r := stepPart st ev
    let r2 := runPart r.1 rest
    (r2.1, r.2 ++ r2.2)

/-- Run of the part_000 bootstrap from the initial component state. -/
def runPart0 (evs : List EvPart) : AuthStPart × List Obs :=
  runPart { hasDb := false, isAuthReady := false, userId := none } evs

/-- Tracks whether a ready transition has been observed after scanning a
trace, starting from the flag `s`. -/
def seenAfter : Bool → List Obs → Bool
  | s, [] => s
  | _, Obs.ready :: rest => seenAfter true rest
  | s, _ :: rest => seenAfter s rest

/-- Checks that every subscription-opening event in the trace — of any of the
three kinds — is preceded by a ready transition (or the flag `s` says one was
already seen). -/
def readyFirst : Bool → List Obs → Bool
  | _, [] => true
  | _, Obs.ready :: rest => readyFirst true rest
  | s, Obs.subscribeAlbums _ :: rest => s && readyFirst s rest
  | s, Obs.subscribeAlbumDoc _ :: rest => s && readyFirst s rest
  | s, Obs.subscribePhotos _ :: rest => s && readyFirst s rest
  | s, _ :: rest => readyFirst s rest

theorem readyFirst_append (xs ys : List Obs) (s : Bool) :
    readyFirst s (xs ++ ys)
      = (readyFirst s xs && readyFirst (seenAfter s xs) ys) := by
  induction xs generalizing s with
  | nil => simp [readyFirst, seenAfter]
  | cons x rest ih =>
    cases x with
    | ready => simp [readyFirst, seenAfter, ih]
    | subscribeAlbums u => simp [readyFirst, seenAfter, ih, Bool.and_assoc]
    | subscribeAlbumDoc u => simp [readyFirst, seenAfter, ih, Bool.and_assoc]
    | subscribePhotos u => simp [readyFirst, seenAfter, ih, Bool.and_assoc]
    | attemptTokenSignIn => simp [readyFirst, seenAfter, ih]
    | attemptAnonSignIn => simp [readyFirst, seenAfter, ih]

theorem runApp_readyFirst (evs : List EvApp) :
    ∀ (st : AuthStApp) (s : Bool), (st.authReady = true → s = true) →
    readyFirst s (runApp st evs).2 = true := by
  induction evs with
  | nil => intro st s _; simp [runApp, readyFirst]
  | cons ev rest ih =>
    intro st s hinv
    rw [show (runApp st (ev :: rest)).2
          = (stepApp st ev).2 ++ (runApp (stepApp st ev).1 rest).2 from rfl]
    rw [readyFirst_append]
    cases ev with
    | authCallback user tp thr =>
      cases user with
      | some u =>
        cases hA : st.authReady with
        | true =>
          have hs := hinv hA
          subst hs
          simp only [stepApp, hA, if_true, readyFirst, seenAfter,
            Bool.true_and]
          exact ih _ _ (fun _ => rfl)
        | false =>
          simp only [stepApp, hA, Bool.false_eq_true, if_false, readyFirst,
            seenAfter, Bool.true_and]
          exact ih _ _ (fun _ => rfl)
      | none =>
        cases tp <;>
          · cases hA : st.authReady with
            | true =>
              have hs := hinv hA
              subst hs
              simp only [stepApp, hA, if_true, Bool.false_eq_true, if_false,
                readyFirst, seenAfter, Bool.true_and]
              exact ih _ _ (fun _ => rfl)
            | false =>
              simp only [stepApp, hA, Bool.false_eq_true, if_false, if_true,
                readyFirst, seenAfter, Bool.true_and]
              exact ih _ _ (fun _ => rfl)
    | albumsEffect =>
      cases hA : st.authReady with
      | true =>
        have hs := hinv hA
        subst hs
        simp only [stepApp, hA, if_true, readyFirst, seenAfter,
          Bool.true_and, Bool.and_self]
        exact ih _ _ (fun _ => rfl)
      | false =>
        simp only [stepApp, hA, Bool.false_eq_true, if_false, readyFirst,
          seenAfter, Bool.true_and]
        exact ih st s hinv
    | photosEffect selId =>
      cases hA : st.authReady with
      | true =>
        have hs := hinv hA
        subst hs
        cases selId with
        | some aid =>
          simp only [stepApp, hA, if_true, readyFirst, seenAfter,
            Bool.true_and, Bool.and_self]
          exact ih _ _ (fun _ => rfl)
        | none =>
          simp only [stepApp, hA, if_true, readyFirst, seenAfter,
            Bool.true_and]
          exact ih _ _ (fun _ => rfl)
      | false =>
        simp only [stepApp, hA, Bool.false_eq_true, if_false, readyFirst,
          seenAfter, Bool.true_and]
        exact ih st s hinv

theorem runPart_readyFirst (evs : List EvPart) :
    ∀ (st : AuthStPart) (s : Bool), (st.isAuthReady = true → s = true) →
    readyFirst s (runPart st evs).2 = true := by
  induction evs with
  | nil => intro st s _; simp [runPart, readyFirst]
  | cons ev rest ih =>
    intro st s hinv
    rw [show (runPart st (ev :: rest)).2
          = (stepPart st ev).2 ++ (runPart (stepPart st ev).1 rest).2 from rfl]
    rw [readyFirst_append]
    cases ev with
    | initOk =>
      simp only [stepPart, readyFirst, seenAfter, Bool.true_and]
      exact ih _ _ hinv
    | initFail =>
      cases hA : st.isAuthReady with
      | true =>
        have hs := hinv hA
        subst hs
        simp only [stepPart, hA, if_true, readyFirst, seenAfter, Bool.true_and]
        exact ih _ _ (fun _ => rfl)
      | false =>
        simp only [stepPart, hA, Bool.false_eq_true, if_false, readyFirst,
          seenAfter, Bool.true_and]
        exact ih _ _ (fun _ => rfl)
    | authCallback user tp thr uid =>
      cases user with
      | some u =>
        cases hA : st.isAuthReady with
        | true =>
          have hs := hinv hA
          subst hs
          simp only [stepPart, hA, if_true, readyFirst, seenAfter,
            Bool.true_and]
          exact ih _ _ (fun _ => rfl)
        | false =>
          simp only [stepPart, hA, Bool.false_eq_true, if_false, readyFirst,
            seenAfter, Bool.true_and]
          exact ih _ _ (fun _ => rfl)
      | none =>
        cases thr with
        | true =>
          cases tp <;>
            · cases hA : st.isAuthReady with
              | true =>
                have hs := hinv hA
                subst hs
                simp only [stepPart, hA, if_true, Bool.false_eq_true,
                  if_false, readyFirst, seenAfter, Bool.true_and]
                exact ih _ _ (fun _ => rfl)
              | false =>
                simp only [stepPart, hA, Bool.false_eq_true, if_false,
                  if_true, readyFirst, seenAfter, Bool.true_and]
                exact ih _ _ (fun _ => rfl)
        | false =>
          cases tp <;>
            · simp only [stepPart, Bool.false_eq_true, if_false, if_true,
                readyFirst, seenAfter, Bool.true_and]
              exact ih st s hinv
    | homeEffect =>
      cases hG : st.hasDb && st.isAuthReady with
      | true =>
        have hs := hinv (Bool.and_elim_right hG)
        subst hs
        simp only [stepPart, hG, if_true, readyFirst, seenAfter,
          Bool.true_and, Bool.and_self]
        exact ih _ _ (fun _ => rfl)
      | false =>
        simp only [stepPart, hG, Bool.false_eq_true, if_false, readyFirst,
          seenAfter, Bool.true_and]
        exact ih st s hinv
    | albumDetailEffect albumId =>
      cases hG : st.hasDb && st.isAuthReady with
      | true =>
        have hs := hinv (Bool.and_elim_right hG)
        subst hs
        cases albumId with
        | some aid =>
          simp only [stepPart, hG, if_true, readyFirst, seenAfter,
            Bool.true_and, Bool.and_self]
          exact ih _ _ (fun _ => rfl)
        | none =>
          simp only [stepPart, hG, if_true, readyFirst, seenAfter,
            Bool.true_and]
          exact ih _ _ (fun _ => rfl)
      | false =>
        simp only [stepPart, hG, Bool.false_eq_true, if_false, readyFirst,
          seenAfter, Bool.true_and]
        exact ih st s hinv
    | adminEffect =>
      cases hG : st.hasDb && st.isAuthReady with
      | true =>
        have hs := hinv (Bool.and_elim_right hG)
        subst hs
        simp only [stepPart, hG, if_true, readyFirst, seenAfter,
          Bool.true_and, Bool.and_self]
        exact ih _ _ (fun _ => rfl)
      | false =>
        simp only [stepPart, hG, Bool.false_eq_true, if_false, readyFirst,
          seenAfter, Bool.true_and]
        exact ih st s hinv

/-- Claim C5 — counterexample.  In the App.jsx variant an execution in which
the first auth callback reports no user and the sign-in attempt throws still
sets the ready flag with `userId` null; the albums effect then opens the
subscription while no identity was ever established, refuting the claim that
every subscribe happens only after an identity is established. -/
theorem c5_counterexample :
    (runApp0 [EvApp.authCallback none true true, EvApp.albumsEffect]).2
      = [Obs.attemptTokenSignIn, Obs.ready, Obs.subscribeAlbums none]
    ∧ (runApp0 [EvApp.authCallback none true true,
        EvApp.albumsEffect]).1.userId = none := by
  decide

/-- Claim C5 — amended.  In every execution of either variant every opening of
a data subscription — the albums list (App.jsx albums effect; part_000
home/gallery and admin effects), the single album document (part_000
album-detail effect), and the photos-by-album or photos collection queries
(App.jsx photos effect; part_000 album-detail and admin effects) — is
preceded by the ready transition of the identity bootstrap; the ready
transition, however, does not always coincide with an identity being
established (in App.jsx it also fires when sign-in fails and `userId` stays
null). -/
theorem c5_amended :
    (∀ evs : List EvApp, readyFirst false (runApp0 evs).2 = true)
    ∧ (∀ evs : List EvPart, readyFirst false (runPart0 evs).2 = true) :=
  ⟨fun evs => runApp_readyFirst evs _ false (fun h => h),
   fun evs => runPart_readyFirst evs _ false (fun h => h)⟩

/-- Claim C7 — counterexample.  In the App.jsx variant, when no token is
present and the anonymous sign-in attempt throws, the catch only shows a
notification: no locally generated random identifier is produced, so the
execution ends with the ready flag set but no identity established. -/
theorem c7_counterexample :
    (runApp0 [EvApp.authCallback none false true]).1.userId = none
    ∧ (runApp0 [EvApp.authCallback none false true]).1.authReady = true
    ∧ (runApp0 [EvApp.authCallback none false true]).2
        = [Obs.attemptAnonSignIn, Obs.ready] := by
  decide

/-- Claim C7 — amended.  Both bootstraps attempt token sign-in when a token is
pre-supplied and anonymous sign-in otherwise.  When the attempt fails, the
part_000 variant falls back to the locally generated random identifier, so an
identity is established and the session continues in degraded mode; the
App.jsx variant instead leaves `userId` null (only surfacing an error notice)
while still setting the ready flag, so no identity is established on that
path. -/
theorem c7_amended :
    (∀ (st : AuthStPart) (thr : Bool) (uid : String),
      Obs.attemptTokenSignIn
          ∈ (stepPart st (EvPart.authCallback none true thr uid)).2
      ∧ Obs.attemptAnonSignIn
          ∈ (stepPart st (EvPart.authCallback none false thr uid)).2)
    ∧ (∀ (st : AuthStApp) (thr : Bool),
      Obs.attemptTokenSignIn
          ∈ (stepApp st (EvApp.authCallback none true thr)).2
      ∧ Obs.attemptAnonSignIn
          ∈ (stepApp st (EvApp.authCallback none false thr)).2)
    ∧ (∀ (st : AuthStPart) (tp : Bool) (uid : String),
      (stepPart st (EvPart.authCallback none tp true uid)).1.userId = some uid
      ∧ (stepPart st (EvPart.authCallback none tp true uid)).1.isAuthReady
          = true)
    ∧ (∀ (st : AuthStApp) (tp : Bool),
      (stepApp st (EvApp.authCallback none tp true)).1.userId = none
      ∧ (stepApp st (EvApp.authCallback none tp true)).1.authReady = true) := by
  refine ⟨?_, ?_, ?_, ?_⟩
  · intro st thr uid
    cases thr <;> cases h : st.isAuthReady <;> simp [stepPart, h]
  · intro st thr
    cases h : st.authReady <;> simp [stepApp, h]
  · intro st tp uid
    cases tp <;> cases h : st.isAuthReady <;> simp [stepPart, h]
  · intro st tp
    cases tp <;> cases h : st.authReady <;> simp [stepApp, h]

/-- Local state of the part_000 `AlbumDetailPage` read by its single-album
snapshot callback. -/
structure DetailState where
  album : Option AlbumDoc
  currentPage : String
  deriving DecidableEq, Repr

namespace PartV

/-- Single-album document snapshot callback of `AlbumDetailPage` in part_000
(lines 352-363): when the document exists the local album state is replaced,
and when it does not (for instance after a delete from another session) the
album state is cleared and the page navigates back to the gallery. -/
def onAlbumDocSnapshot (docSnap : Option AlbumDoc) (st : DetailState) :
    DetailState :=
  match docSnap with
  | some a => { st with album := some a }
  | none => { album := none, currentPage := "gallery" }

end PartV

/-- Claim C8 — deleting the album a single-album subscription watches makes
the callback observe the document-not-found state; the callback is a total
function (nothing is thrown), it clears the local album state and navigates
the consumer back to the gallery, while an existing document simply replaces
the local album state. -/
theorem c8_not_found_transition :
    (∀ st : DetailState,
      PartV.onAlbumDocSnapshot none st
        = { album := none, currentPage := "gallery" })
    ∧ (∀ (st : DetailState) (a : AlbumDoc),
      PartV.onAlbumDocSnapshot (some a) st = { st with album := some a }) :=
  ⟨fun _ => rfl, fun _ _ => rfl⟩

end PaginaFotos
